import Mathlib

/-!
Shallow embedding of `google/colab/_reprs.py` together with the parts of its
external collaborators (IPython's display-formatter dispatch tables, a small
fragment of pandas dataframes) that the module's behaviour depends on.
Machine-level Python values are modelled by explicit inductive types; Python
dicts that the module reads and writes are modelled by functions to `Option`
(for the registries, whose key spaces are open) or by `Option` directly (for
the module-private saved-callback dicts, each of which is only ever accessed
at one fixed key).  Fallible Python statements (KeyError, IndexError,
AttributeError) are modelled with `Except Unit`.
-/

namespace ColabReprs

/-- Rendering callback functions stored in the formatter registry.  The three
module-defined callbacks are named after their source functions; `ext n`
stands for an arbitrary externally registered callback object. -/
inductive Callback where
  | string_intrinsic_repr
  | dataframe_intrinsic_repr
  | new_formatter
  | ext (n : Nat)
deriving DecidableEq, Repr

/-- A Python type is identified by its `(module, name)` pair; the embedding
collapses type-object identity to this key (no two distinct types used by the
module share a qualified name, and the model has no subclassing among them). -/
abbrev TypeKey := String × String

/-- The `str` builtin type. -/
def strType : TypeKey := ("builtins", "str")

/-- The `pandas.io.formats.style.Styler` type key. -/
def stylerType : TypeKey := ("pandas.io.formats.style", "Styler")

/-- The `pandas.core.frame.DataFrame` type key. -/
def dataFrameType : TypeKey := ("pandas.core.frame", "DataFrame")

/-- Models IPython's `BaseFormatter` dispatch table: a `type_printers` dict
keyed by type objects and a `deferred_printers` dict keyed by
`(module, name)` pairs. -/
structure DispatchTable where
  type_printers : TypeKey → Option Callback
  deferred_printers : TypeKey → Option Callback

/-- Python dict assignment / deletion on a function-typed map: `v = some f`
stores `f` under `k`, `v = none` removes the key. -/
def updateMap (m : TypeKey → Option Callback) (k : TypeKey) (v : Option Callback) :
    TypeKey → Option Callback :=
  fun q => if q = k then v else m q

/-- Models IPython `BaseFormatter.lookup_by_type` applied to a type object:
`type_printers` is consulted first; on a miss, a matching
`deferred_printers` entry is migrated into `type_printers`
(IPython's `_in_deferred_types`) and returned. -/
def DispatchTable.lookup_by_type (t : DispatchTable) (k : TypeKey) :
    Option Callback × DispatchTable :=
  match t.type_printers k with
  | some f => (some f, t)
  | none =>
    match t.deferred_printers k with
    | some f =>
        (some f,
         { type_printers := updateMap t.type_printers k (some f),
           deferred_printers := updateMap t.deferred_printers k none })
    | none => (none, t)

/-- Models IPython `lookup_by_type` applied to a dotted-name string:
`deferred_printers` is consulted first, then `type_printers` is scanned for a
type with the matching `(module, name)` key; no migration happens. -/
def DispatchTable.lookup_by_name (t : DispatchTable) (k : TypeKey) : Option Callback :=
  match t.deferred_printers k with
  | some f => some f
  | none => t.type_printers k

/-- Models IPython `BaseFormatter.for_type(typ, func)`: returns the previously
registered callback (possibly migrating a deferred entry) and, when `func` is
not `None`, installs `func` in `type_printers`. -/
def DispatchTable.for_type (t : DispatchTable) (k : TypeKey) (func : Option Callback) :
    Option Callback × DispatchTable :=
  let old := t.lookup_by_type k
  match func with
  | none => (old.1, old.2)
  | some f => (old.1, { old.2 with type_printers := updateMap old.2.type_printers k (some f) })

/-- Models IPython `BaseFormatter.for_type_by_name(mod, name, func)`: the old
callback is read through the string-key lookup and `func`, when not `None`,
is installed in `deferred_printers`. -/
def DispatchTable.for_type_by_name (t : DispatchTable) (k : TypeKey) (func : Option Callback) :
    Option Callback × DispatchTable :=
  let old := t.lookup_by_name k
  match func with
  | none => (old, t)
  | some f => (old, { t with deferred_printers := updateMap t.deferred_printers k (some f) })

/-- Models IPython `BaseFormatter.pop(typ)` for a type object (no default):
removes and returns the entry, raising `KeyError` (the `error` case) when the
type is registered in neither dict. -/
def DispatchTable.pop_by_type (t : DispatchTable) (k : TypeKey) :
    Except Unit (Callback × DispatchTable) :=
  match t.type_printers k with
  | some f => .ok (f, { t with type_printers := updateMap t.type_printers k none })
  | none =>
    match t.deferred_printers k with
    | some f => .ok (f, { t with deferred_printers := updateMap t.deferred_printers k none })
    | none => .error ()

/-- Models IPython `BaseFormatter.pop("mod.Name")` for a dotted-name string
(no default): `deferred_printers` is tried first, then `type_printers` is
scanned by `(module, name)` key; `KeyError` when both miss. -/
def DispatchTable.pop_by_name (t : DispatchTable) (k : TypeKey) :
    Except Unit (Callback × DispatchTable) :=
  match t.deferred_printers k with
  | some f => .ok (f, { t with deferred_printers := updateMap t.deferred_printers k none })
  | none =>
    match t.type_printers k with
    | some f => .ok (f, { t with type_printers := updateMap t.type_printers k none })
    | none => .error ()

/-- Tabular column payload: pandas numeric columns hold integers in the model
(enough to exercise variance), non-numeric columns hold strings. -/
inductive PyData where
  | numeric (values : List Int)
  | textual (values : List String)
deriving DecidableEq, Repr

/-- One named, typed column of a dataframe. -/
structure Column where
  name : String
  dtype : String
  data : PyData
deriving DecidableEq, Repr

/-- A pandas dataframe: an index length (`len(df)`) and a list of columns. -/
structure DataFrame where
  nrows : Nat
  cols : List Column
deriving DecidableEq, Repr

/-- Python values that can live in the notebook namespace. -/
inductive PyVal where
  | df (d : DataFrame)
  | str (s : String)
  | strList (xs : List String)
  | obj (tag : Nat)
deriving DecidableEq, Repr

/-- A Python object: an identity (`id()`), compared by the `is` operator, and
a value.  Two objects with different `oid` may carry equal values. -/
structure Obj where
  oid : Nat
  val : PyVal
deriving DecidableEq, Repr

/-- The slice of an active IPython shell the module touches: the
display-formatter registry (MIME type to dispatch table) and the user
namespace in its insertion order (`In` lives inside it, as in IPython). -/
structure Shell where
  formatters : String → Option DispatchTable
  user_ns : List (String × Obj)

/-- The process-wide state of the module: the active shell (if any) and the
three module-private saved-callback dicts.  Each of those dicts is only ever
accessed at one fixed key in the source, so it is modelled by
`Option (Option Callback)`: `none` when the key is absent, `some orig` when
the key maps to the saved previous callback `orig` (itself possibly `None`). -/
structure ColabState where
  shell : Option Shell
  _original_string_formatters : Option (Option Callback)
  _original_df_formatters : Option (Option Callback)
  _original_dataframe_metadata_formatters : Option (Option Callback)

/-- Python dict assignment on the shell's formatters dict. -/
def updateFmts (m : String → Option DispatchTable) (k : String) (v : DispatchTable) :
    String → Option DispatchTable :=
  fun q => if q = k then some v else m q

/-- The custom MIME type for intrinsic payloads. -/
def _INTRINSIC_MIME_TYPE : String := "application/vnd.google.colaboratory.intrinsic+json"

/-- A freshly constructed `_IntrinsicTypeFormatter`: a dispatch table with no
registered printers. -/
def _IntrinsicTypeFormatter : DispatchTable := ⟨fun _ => none, fun _ => none⟩

/-- Writes one entry of the shell's formatters dict. -/
def Shell.setFmt (sh : Shell) (mime : String) (dt : DispatchTable) : Shell :=
  { sh with formatters := updateFmts sh.formatters mime dt }

/-- Models `_register_intrinsic_mimetype`: with no shell it does nothing;
otherwise, when no formatter is registered for the intrinsic MIME type, a
fresh dispatch table is inserted (`setdefault`). -/
def _register_intrinsic_mimetype (s : ColabState) : ColabState :=
  match s.shell with
  | none => s
  | some sh =>
    match sh.formatters _INTRINSIC_MIME_TYPE with
    | some _ => s
    | none =>
        { s with shell := some (sh.setFmt _INTRINSIC_MIME_TYPE _IntrinsicTypeFormatter) }

/-- Models `enable_string_repr`: a no-op when the saved-callback dict already
holds the key; otherwise registers the intrinsic MIME type, returns when no
shell is active, and installs `_string_intrinsic_repr` for `str`, saving the
previous callback. -/
def enable_string_repr (s : ColabState) : Except Unit ColabState :=
  match s._original_string_formatters with
  | some _ => .ok s
  | none =>
    let s1 := _register_intrinsic_mimetype s
    match s1.shell with
    | none => .ok s1
    | some sh =>
      match sh.formatters _INTRINSIC_MIME_TYPE with
      | none => .error ()
      | some dt =>
        let r := dt.for_type strType (some .string_intrinsic_repr)
        .ok { s1 with shell := some (sh.setFmt _INTRINSIC_MIME_TYPE r.2),
                      _original_string_formatters := some r.1 }

/-- Models `disable_string_repr`: a no-op when no callback was saved;
otherwise pops the `str` entry and reinstalls the saved callback (`for_type`
with `None` leaves the slot empty).  Accessing the shell with no active
session, or popping an unregistered entry, raises. -/
def disable_string_repr (s : ColabState) : Except Unit ColabState :=
  match s._original_string_formatters with
  | none => .ok s
  | some orig =>
    match s.shell with
    | none => .error ()
    | some sh =>
      match sh.formatters _INTRINSIC_MIME_TYPE with
      | none => .error ()
      | some dt =>
        match dt.pop_by_type strType with
        | .error _ => .error ()
        | .ok fd =>
          let r := (fd.2).for_type strType orig
          .ok { s with shell := some (sh.setFmt _INTRINSIC_MIME_TYPE r.2),
                       _original_string_formatters := none }

/-- Models `enable_df_style_formatter`: installs `new_formatter` for the
Styler type by dotted name under the `text/html` formatter, saving the
previous callback; no-op when already enabled or no shell is active. -/
def enable_df_style_formatter (s : ColabState) : Except Unit ColabState :=
  match s._original_df_formatters with
  | some _ => .ok s
  | none =>
    match s.shell with
    | none => .ok s
    | some sh =>
      match sh.formatters "text/html" with
      | none => .error ()
      | some dt =>
        let r := dt.for_type_by_name stylerType (some .new_formatter)
        .ok { s with shell := some (sh.setFmt "text/html" r.2),
                     _original_df_formatters := some r.1 }

/-- Models `disable_df_style_formatter`. -/
def disable_df_style_formatter (s : ColabState) : Except Unit ColabState :=
  match s._original_df_formatters with
  | none => .ok s
  | some orig =>
    match s.shell with
    | none => .error ()
    | some sh =>
      match sh.formatters "text/html" with
      | none => .error ()
      | some dt =>
        match dt.pop_by_name stylerType with
        | .error _ => .error ()
        | .ok fd =>
          let r := (fd.2).for_type_by_name stylerType orig
          .ok { s with shell := some (sh.setFmt "text/html" r.2),
                       _original_df_formatters := none }

/-- Models `enable_dataframe_metadata_repr`. -/
def enable_dataframe_metadata_repr (s : ColabState) : Except Unit ColabState :=
  match s._original_dataframe_metadata_formatters with
  | some _ => .ok s
  | none =>
    let s1 := _register_intrinsic_mimetype s
    match s1.shell with
    | none => .ok s1
    | some sh =>
      match sh.formatters _INTRINSIC_MIME_TYPE with
      | none => .error ()
      | some dt =>
        let r := dt.for_type_by_name dataFrameType (some .dataframe_intrinsic_repr)
        .ok { s1 with shell := some (sh.setFmt _INTRINSIC_MIME_TYPE r.2),
                      _original_dataframe_metadata_formatters := some r.1 }

/-- Models `disable_dataframe_metadata_repr`. -/
def disable_dataframe_metadata_repr (s : ColabState) : Except Unit ColabState :=
  match s._original_dataframe_metadata_formatters with
  | none => .ok s
  | some orig =>
    match s.shell with
    | none => .error ()
    | some sh =>
      match sh.formatters _INTRINSIC_MIME_TYPE with
      | none => .error ()
      | some dt =>
        match dt.pop_by_name dataFrameType with
        | .error _ => .error ()
        | .ok fd =>
          let r := (fd.2).for_type_by_name dataFrameType orig
          .ok { s with shell := some (sh.setFmt _INTRINSIC_MIME_TYPE r.2),
                       _original_dataframe_metadata_formatters := none }

/-- The three toggle pairs of the module, as one indexed family so claims can
quantify over "every toggle pair". -/
inductive Toggle where
  | stringRepr
  | dfStyle
  | dfMeta
deriving DecidableEq, Repr

/-- The MIME-type key each toggle operates under. -/
def Toggle.mime : Toggle → String
  | .stringRepr => _INTRINSIC_MIME_TYPE
  | .dfStyle => "text/html"
  | .dfMeta => _INTRINSIC_MIME_TYPE

/-- The value-type key each toggle installs its callback for. -/
def Toggle.typeKey : Toggle → TypeKey
  | .stringRepr => strType
  | .dfStyle => stylerType
  | .dfMeta => dataFrameType

/-- The rendering callback each toggle installs. -/
def Toggle.callback : Toggle → Callback
  | .stringRepr => .string_intrinsic_repr
  | .dfStyle => .new_formatter
  | .dfMeta => .dataframe_intrinsic_repr

/-- The toggle's saved-callback record (`OverrideRecord`): `none` when the
feature's key is absent from its module-private dict. -/
def Toggle.record : Toggle → ColabState → Option (Option Callback)
  | .stringRepr, s => s._original_string_formatters
  | .dfStyle, s => s._original_df_formatters
  | .dfMeta, s => s._original_dataframe_metadata_formatters

/-- Dispatch to the toggle's enable function. -/
def Toggle.enable : Toggle → ColabState → Except Unit ColabState
  | .stringRepr, s => enable_string_repr s
  | .dfStyle, s => enable_df_style_formatter s
  | .dfMeta, s => enable_dataframe_metadata_repr s

/-- Dispatch to the toggle's disable function. -/
def Toggle.disable : Toggle → ColabState → Except Unit ColabState
  | .stringRepr, s => disable_string_repr s
  | .dfStyle, s => disable_df_style_formatter s
  | .dfMeta, s => disable_dataframe_metadata_repr s

/-- The effective callback registered for the toggle's
(mime-type, value-type) slot: the callback IPython's type lookup would
dispatch to (observation only, the migration side effect is dropped). -/
def Toggle.slotLookup (t : Toggle) (s : ColabState) : Option Callback :=
  match s.shell with
  | none => none
  | some sh =>
    match sh.formatters t.mime with
    | none => none
    | some dt => (dt.lookup_by_type t.typeKey).1

/-- The dict entry that the toggle's enable writes: the `type_printers` entry
for the string toggle, the `deferred_printers` entry for the by-name toggles. -/
def Toggle.installedSlot (t : Toggle) (s : ColabState) : Option Callback :=
  match s.shell with
  | none => none
  | some sh =>
    match sh.formatters t.mime with
    | none => none
    | some dt =>
      match t with
      | .stringRepr => dt.type_printers strType
      | .dfStyle => dt.deferred_printers stylerType
      | .dfMeta => dt.deferred_printers dataFrameType

/-- Python dict / ordered-mapping lookup on an association list (keys are
unique in every state a Python dict can reach, so first-match lookup agrees
with dict lookup). -/
def alookup {A : Type} : List (String × A) → String → Option A
  | [], _ => none
  | (k, v) :: rest, q => if k = q then some v else alookup rest q

/-- Models `_string_intrinsic_repr`: returns the constant one-key payload
whatever the argument is. -/
def _string_intrinsic_repr (_ : Obj) : List (String × String) := [("type", "string")]

/-- Models Python `str.startswith` by a structurally recursive prefix test
(kernel-computable, unlike `String.startsWith`). -/
def pyStartsWith (s pre : String) : Bool := pre.data.isPrefixOf s.data

/-- Models the identity scan of `_dataframe_intrinsic_repr`: walk the
namespace in order and return the first name that is bound to the very same
object (`is`, compared on `oid`) and does not start with an underscore. -/
def scanNamespace (dataframe : Obj) : List (String × Obj) → Option String
  | [] => none
  | (varname, var) :: rest =>
    if dataframe.oid == var.oid && !(pyStartsWith varname "_") then some varname
    else scanNamespace dataframe rest

/-- Splits a character list at the first dot, when there is one. -/
def splitAtDot : List Char → Option (List Char × List Char)
  | [] => none
  | c :: cs =>
    if c = '.' then some ([], cs)
    else
      match splitAtDot cs with
      | some (a, b) => some (c :: a, b)
      | none => none

/-- Models Python `s.partition(".")`: split at the first dot into
(head, separator, tail), with separator `""` when there is no dot. -/
def pypartition (s : String) : String × String × String :=
  match splitAtDot s.data with
  | some (a, b) => (String.mk a, ".", String.mk b)
  | none => (s, "", "")

/-- Models Python `str.isidentifier` restricted to ASCII text (the only kind
exercised here): non-empty, first character a letter or underscore, the rest
letters, digits or underscores. -/
def pyIsIdentifier (s : String) : Bool :=
  match s.data with
  | [] => false
  | c :: cs => (c.isAlpha || c == '_') && cs.all (fun d => d.isAlphanum || d == '_')

/-- Row-count bound above which summarization is skipped. -/
def _MAX_DATAFRAME_ROWS : Nat := 100000

/-- Column-count bound above which summarization is skipped. -/
def _MAX_DATAFRAME_COLS : Nat := 20

/-- Models `df.var()` column variance with pandas' default `ddof=1`, defined
for at least two values; pandas yields NaN (`none` here) otherwise. -/
def pandasVar (xs : List Int) : Option Rat :=
  if 2 ≤ xs.length then
    let n : Rat := (xs.length : Rat)
    let s : Rat := ((xs.sum : Int) : Rat)
    let s2 : Rat := (((xs.map (fun x => x * x)).sum : Int) : Rat)
    some ((n * s2 - s * s) / (n * (n - 1)))
  else none

/-- Models `df.nunique()` for one column: the number of distinct values. -/
def PyData.nunique : PyData → Nat
  | .numeric xs => xs.dedup.length
  | .textual xs => xs.dedup.length

/-- The column's value in the first row (`df.iloc[:1]`), rendered as text. -/
def PyData.firstValue : PyData → Option String
  | .numeric xs => xs.head?.map (fun x => toString x)
  | .textual xs => xs.head?

/-- One line of the summary report: per-column name, variance, distinct
count, declared dtype and example value, all rendered as text cells. -/
structure SummaryRow where
  name : String
  variance : String
  nunique : String
  dtype : String
  example_value : String
deriving DecidableEq, Repr

/-- The variance cell: a number for a numeric column with enough rows, the
NaN pandas prints for non-numeric columns (which `df.var(numeric_only=True)`
leaves unassigned, hence NaN after alignment) and for single-row columns. -/
def varianceCell (c : Column) : String :=
  match c.data with
  | .numeric xs => match pandasVar xs with | some q => toString q | none => "NaN"
  | .textual _ => "NaN"

/-- The example-value cell, NaN when the column is empty. -/
def exampleCell (c : Column) : String := c.data.firstValue.getD "NaN"

/-- The summary record `assign` builds for one column. -/
def summaryRow (c : Column) : SummaryRow :=
  ⟨c.name, varianceCell c, toString c.data.nunique, c.dtype, exampleCell c⟩

/-- Width of one rendered column of the report: the longest cell, header
included (models the fixed-width alignment of `DataFrame.to_string`). -/
def cellWidth (header : String) (cells : List String) : Nat :=
  cells.foldl (fun w c => max w c.length) header.length

/-- The five column widths of the rendered report. -/
structure Widths where
  wname : Nat
  wvar : Nat
  wnun : Nat
  wdty : Nat
  wex : Nat

/-- Widths for a given list of summary rows. -/
def tableWidths (rows : List SummaryRow) : Widths :=
  ⟨cellWidth "name" (rows.map SummaryRow.name),
   cellWidth "variance" (rows.map SummaryRow.variance),
   cellWidth "nunique" (rows.map SummaryRow.nunique),
   cellWidth "dtype" (rows.map SummaryRow.dtype),
   cellWidth "example_value" (rows.map SummaryRow.example_value)⟩

/-- Right-justify a cell to the given width. -/
def padTo (w : Nat) (s : String) : String :=
  String.mk (List.replicate (w - s.length) ' ') ++ s

/-- One rendered fixed-width line of the report. -/
def renderLine (w : Widths) (r : SummaryRow) : String :=
  padTo w.wname r.name ++ " " ++ padTo w.wvar r.variance ++ " " ++
    padTo w.wnun r.nunique ++ " " ++ padTo w.wdty r.dtype ++ " " ++
    padTo w.wex r.example_value

/-- The header row of the report. -/
def headerRow : SummaryRow := ⟨"name", "variance", "nunique", "dtype", "example_value"⟩

/-- Models `DataFrame.to_string` on the assembled report: a fixed-width text
table with a header line and one line per summary row (the text pandas
prints for a frame with no rows is kept verbatim). -/
def renderSummaryTable (rows : List SummaryRow) : String :=
  match rows with
  | [] => "Empty DataFrame\nColumns: [name, variance, nunique, dtype, example_value]\nIndex: []"
  | _ :: _ =>
    let w := tableWidths rows
    renderLine w headerRow ++ String.join (rows.map (fun r => "\n" ++ renderLine w r))

/-- Models `_summarize_dataframe`: `None` beyond the size bounds; the
`except Exception` clause is represented by the one failure mode the model
can express, a 0-row dataframe, for which
`pd.DataFrame().assign(..., example_value=df.iloc[:1].T)` raises
`ValueError` (the transposed slice has no columns); otherwise the rendered
per-column report. -/
def _summarize_dataframe (df : DataFrame) : Option String :=
  if df.nrows > _MAX_DATAFRAME_ROWS ∨ df.cols.length > _MAX_DATAFRAME_COLS then none
  else if df.nrows = 0 then none
  else some (renderSummaryTable (df.cols.map summaryRow))

/-- Running `_summarize_dataframe` on an arbitrary Python value: a value
that is no dataframe makes the body raise at `len(df)`, which the `except`
clause converts to `None`. -/
def summarizeVal : PyVal → Option String
  | .df d => _summarize_dataframe d
  | _ => none

/-- Models `if summary := _summarize_dataframe(dataframe): result[...] = summary`:
the key is appended only when the summary is truthy (non-`None` and
non-empty). -/
def withSummary (result : List (String × String)) (o : Obj) : List (String × String) :=
  match summarizeVal o.val with
  | some s => if s = "" then result else result ++ [("summary", s)]
  | none => result

def basePayload : List (String × String) := [("type", "dataframe")]

/-- Models `_dataframe_intrinsic_repr`.  The payload starts as
`{"type": "dataframe"}`; with an active shell the identity scan may add
`variable_name`; on a scan miss the last input line `ip.user_ns["In"][-1]`
is inspected — an absent `In` binding is a `KeyError`, a non-list one is not
a string list (modelled as an error) and an empty one an `IndexError` — and
when it matches `name.head(` for a namespace name bound to a dataframe,
that object replaces the displayed one for summarization.  The summary is
appended last, when truthy. -/
def _dataframe_intrinsic_repr (dataframe : Obj) (shellOpt : Option Shell) :
    Except Unit (List (String × String)) :=
  match shellOpt with
  | none => .ok (withSummary basePayload dataframe)
  | some ip =>
    match scanNamespace dataframe ip.user_ns with
    | some varname => .ok (withSummary (basePayload ++ [("variable_name", varname)]) dataframe)
    | none =>
      match alookup ip.user_ns "In" with
      | none => .error ()
      | some inObj =>
        match inObj.val with
        | .strList xs =>
          match xs.getLast? with
          | none => .error ()
          | some last_line =>
            if pyIsIdentifier (pypartition last_line).1 && (pypartition last_line).2.1 != "" &&
                pyStartsWith (pypartition last_line).2.2 "head(" then
              match alookup ip.user_ns (pypartition last_line).1 with
              | some possible_df =>
                match possible_df.val with
                | .df _ =>
                    .ok (withSummary
                      (basePayload ++ [("variable_name", (pypartition last_line).1)]) possible_df)
                | _ => .ok (withSummary basePayload dataframe)
              | none => .ok (withSummary basePayload dataframe)
            else .ok (withSummary basePayload dataframe)
        | _ => .error ()

/-- The module's public surface: its three enable/disable pairs (every other
definition in the source file has an underscore-private name). -/
def publicTogglePairs : List (String × String) :=
  [("enable_string_repr", "disable_string_repr"),
   ("enable_df_style_formatter", "disable_df_style_formatter"),
   ("enable_dataframe_metadata_repr", "disable_dataframe_metadata_repr")]

/-- The model function behind each public name.  Each has the side-effect-only
shape `ColabState → Except Unit ColabState`: it returns the mutated process
state and no payload, like the `None`-returning Python originals. -/
def publicFunction : String → Option (ColabState → Except Unit ColabState)
  | "enable_string_repr" => some enable_string_repr
  | "disable_string_repr" => some disable_string_repr
  | "enable_df_style_formatter" => some enable_df_style_formatter
  | "disable_df_style_formatter" => some disable_df_style_formatter
  | "enable_dataframe_metadata_repr" => some enable_dataframe_metadata_repr
  | "disable_dataframe_metadata_repr" => some disable_dataframe_metadata_repr
  | _ => none

/-! Concrete sample states used to evaluate the model on closed inputs. -/

/-- Sample dispatch table: one external callback registered for `str`. -/
def wTable : DispatchTable :=
  ⟨fun q => if q = strType then some (.ext 5) else none, fun _ => none⟩

/-- Sample shell: the sample table registered under the intrinsic MIME type,
empty namespace. -/
def wShell : Shell :=
  ⟨fun m => if m = _INTRINSIC_MIME_TYPE then some wTable else none, []⟩

/-- Sample state: the sample shell, no toggle enabled. -/
def wState : ColabState := ⟨some wShell, none, none, none⟩

/-- Sample state with no active shell and nothing enabled. -/
def wNoShell : ColabState := ⟨none, none, none, none⟩

/-- A state whose string toggle is recorded as enabled with a saved callback
that differs from the callback currently registered for `str`. -/
def cexState : ColabState := ⟨some wShell, some (some (.ext 0)), none, none⟩

/-- A 1-row dataframe standing for a truncated displayed object. -/
def wSmallDf : DataFrame := ⟨1, [⟨"a", "int64", .numeric [3]⟩]⟩

/-- A 2-row dataframe bound in the namespace under the name `df`. -/
def wBigDf : DataFrame := ⟨2, [⟨"a", "int64", .numeric [3, 4]⟩]⟩

/-- Sample dataframe for the summarizer: two rows, one numeric and one
textual column. -/
def wSumDf : DataFrame :=
  ⟨2, [⟨"a", "int64", .numeric [1, 5]⟩, ⟨"b", "object", .textual ["x", "x"]⟩]⟩

/-- The displayed object: a dataframe bound nowhere in the namespace. -/
def wDfObj : Obj := ⟨7, .df wSmallDf⟩

/-- Shell whose namespace lacks an `In` binding. -/
def wBadShell : Shell := ⟨fun _ => none, [("x", ⟨8, .obj 0⟩)]⟩

/-- Shell with `df` bound to the 2-row dataframe and a well-formed `In`
history ending in `df.head()`. -/
def wGoodShell : Shell :=
  ⟨fun _ => none, [("df", ⟨8, .df wBigDf⟩), ("In", ⟨9, .strList ["df.head()"]⟩)]⟩

/-- Shell with only a history, ending in `print(df)`. -/
def wPrintShell : Shell := ⟨fun _ => none, [("In", ⟨9, .strList ["print(df)"]⟩)]⟩

/-- Namespace where the first identity match carries an underscore-prefixed
name and is therefore skipped. -/
def wNs8 : List (String × Obj) := [("_h", ⟨7, .obj 2⟩), ("df", ⟨7, .obj 2⟩)]

/-! Helper lemmas shared by several claim proofs. -/

theorem alookup_append_single {A : Type} (r : List (String × A)) (a k : String) (v : A) :
    alookup (r ++ [(a, v)]) k =
      match alookup r k with
      | some w => some w
      | none => if a = k then some v else none := by
  induction r with
  | nil => rfl
  | cons hd tl ih =>
    cases hd with
    | mk b w =>
      by_cases hb : b = k
      · simp [alookup, hb]
      · simp [alookup, hb, ih]

theorem renderSummaryTable_ne_empty (rows : List SummaryRow) : renderSummaryTable rows ≠ "" := by
  cases rows with
  | nil => decide
  | cons r rs =>
    intro hcontra
    have hlen := congrArg String.length hcontra
    simp [renderSummaryTable, renderLine, String.length_append,
      show (" " : String).length = 1 from rfl] at hlen

theorem summarize_ne_empty (df : DataFrame) (s : String)
    (h : _summarize_dataframe df = some s) : s ≠ "" := by
  unfold _summarize_dataframe at h
  split at h
  · exact absurd h (by simp)
  · split at h
    · exact absurd h (by simp)
    · rw [Option.some_inj] at h
      exact h ▸ renderSummaryTable_ne_empty _

theorem withSummary_of_df (r : List (String × String)) (o : Obj) (d : DataFrame)
    (hdf : o.val = .df d) :
    withSummary r o =
      match _summarize_dataframe d with
      | some s => r ++ [("summary", s)]
      | none => r := by
  have hval : summarizeVal o.val = _summarize_dataframe d := by
    rw [hdf]
    rfl
  unfold withSummary
  rw [hval]
  cases hsum : _summarize_dataframe d with
  | none => rfl
  | some s =>
    show (if s = "" then r else r ++ [("summary", s)]) = r ++ [("summary", s)]
    rw [if_neg (summarize_ne_empty d s hsum)]

theorem alookup_withSummary (r : List (String × String)) (o : Obj) (k : String)
    (hk : k ≠ "summary") : alookup (withSummary r o) k = alookup r k := by
  unfold withSummary
  cases hsv : summarizeVal o.val with
  | none => rfl
  | some s =>
    show alookup (if s = "" then r else r ++ [("summary", s)]) k = alookup r k
    by_cases hs : s = ""
    · rw [if_pos hs]
    · rw [if_neg hs, alookup_append_single]
      cases halo : alookup r k with
      | some w => rfl
      | none => rw [if_neg (fun h => hk h.symm)]

theorem mem_withSummary (r : List (String × String)) (o : Obj) (e : String × String)
    (he : e ∈ withSummary r o) : e ∈ r ∨ e.1 = "summary" := by
  unfold withSummary at he
  revert he
  cases hsv : summarizeVal o.val with
  | none => exact Or.inl
  | some s =>
    show e ∈ (if s = "" then r else r ++ [("summary", s)]) → e ∈ r ∨ e.1 = "summary"
    by_cases hs : s = ""
    · rw [if_pos hs]
      exact Or.inl
    · rw [if_neg hs]
      intro he
      rcases List.mem_append.1 he with h | h
      · exact Or.inl h
      · right
        simp at h
        rw [h]

/-- C6: for every input value, whatever its content, the string renderer
returns exactly the one-entry mapping "type" ↦ "string" and nothing else. -/
theorem string_repr_constant (x : Obj) : _string_intrinsic_repr x = [("type", "string")] := rfl

/-- C9 counterexample: the module's public surface has three enable/disable
pairs, not four. -/
theorem public_surface_not_four : ¬ publicTogglePairs.length = 4 := by decide

/-- C9 (amended): the public surface consists of exactly three
enable/disable pairs — string intrinsic repr, dataframe style formatter,
dataframe metadata repr — and each name of a pair denotes one of the
module's toggle functions, whose model type `ColabState → Except Unit
ColabState` returns only the mutated process state (side effects, no
payload), like the `None`-returning Python originals. -/
theorem public_surface_three :
    publicTogglePairs.length = 3 ∧
    ∀ p ∈ publicTogglePairs, (publicFunction p.1).isSome ∧ (publicFunction p.2).isSome := by
  refine ⟨rfl, ?_⟩
  decide

/-- C5: the summarizer yields no summary exactly when the row count exceeds
100000, the column count exceeds 20, or the internal computation fails (in
the model: the 0-row dataframe, on which pandas raises); in particular
100001 rows give no summary, and within the bounds the result is the
fixed-width rendered table with one row per column carrying the column
name, variance (NaN for non-numeric columns), distinct-value count,
declared dtype and the first-row example value. -/
theorem summarize_dataframe_spec (df : DataFrame) :
    (_summarize_dataframe df = none ↔
      df.nrows > 100000 ∨ df.cols.length > 20 ∨ df.nrows = 0) ∧
    (df.nrows = 100001 → _summarize_dataframe df = none) ∧
    (df.nrows ≤ 100000 → df.cols.length ≤ 20 → df.nrows ≠ 0 →
      _summarize_dataframe df = some (renderSummaryTable (df.cols.map summaryRow)) ∧
      (df.cols.map summaryRow).length = df.cols.length ∧
      ∀ c ∈ df.cols,
        (summaryRow c).name = c.name ∧
        (summaryRow c).dtype = c.dtype ∧
        (summaryRow c).nunique = toString c.data.nunique ∧
        (summaryRow c).example_value = exampleCell c ∧
        ∀ xs, c.data = .textual xs → (summaryRow c).variance = "NaN") := by
  unfold _summarize_dataframe _MAX_DATAFRAME_ROWS _MAX_DATAFRAME_COLS
  refine ⟨?_, ?_, ?_⟩
  · split
    · simp
      omega
    · split
      · simp
        omega
      · simp
        omega
  · intro h100
    rw [if_pos]
    omega
  · intro hr hc hz
    rw [if_neg (by omega), if_neg hz]
    refine ⟨rfl, by simp, ?_⟩
    intro c _
    refine ⟨rfl, rfl, rfl, rfl, ?_⟩
    intro xs hxs
    simp [summaryRow, varianceCell, hxs]

/-- C5 witness: the sample two-column dataframe is within bounds and gets
the rendered summary. -/
theorem summarize_dataframe_spec_witness :
    wSumDf.nrows ≤ 100000 ∧ wSumDf.cols.length ≤ 20 ∧ wSumDf.nrows ≠ 0 ∧
    _summarize_dataframe wSumDf = some (renderSummaryTable (wSumDf.cols.map summaryRow)) :=
  ⟨by decide, by decide, by decide,
    ((summarize_dataframe_spec wSumDf).2.2 (by decide) (by decide) (by decide)).1⟩

/-- C8: the identity scan returns the first namespace entry, in namespace
order, whose value is the identical object (`is`) and whose name has no
leading underscore; and when the scan misses and the last input line fails
the `name.head(` pattern test (e.g. `print(df)`), the payload carries no
`variable_name` key. -/
theorem identity_scan_spec :
    (∀ (o : Obj) (ns : List (String × Obj)),
      scanNamespace o ns =
        (ns.find? (fun e => o.oid == e.2.oid && !(pyStartsWith e.1 "_"))).map Prod.fst) ∧
    (∀ (o : Obj) (ip : Shell) (inO : Obj) (xs : List String) (l : String),
      scanNamespace o ip.user_ns = none →
      alookup ip.user_ns "In" = some inO →
      inO.val = .strList xs →
      xs.getLast? = some l →
      (pyIsIdentifier (pypartition l).1 && (pypartition l).2.1 != "" &&
        pyStartsWith (pypartition l).2.2 "head(") = false →
      ∃ p, _dataframe_intrinsic_repr o (some ip) = .ok p ∧
        alookup p "variable_name" = none) := by
  constructor
  · intro o ns
    induction ns with
    | nil => rfl
    | cons hd tl ih =>
      cases hd with
      | mk name var =>
        show (if (o.oid == var.oid && !(pyStartsWith name "_")) = true then some name
            else scanNamespace o tl) = _
        cases hcond : (o.oid == var.oid && !(pyStartsWith name "_")) with
        | true => simp [List.find?, hcond]
        | false => simp [List.find?, hcond, ih]
  · intro o ip inO xs l hscan hIn hval hlast hcond
    simp only [_dataframe_intrinsic_repr, hscan, hIn, hval, hlast, hcond,
      Bool.false_eq_true, if_false]
    refine ⟨_, rfl, ?_⟩
    rw [alookup_withSummary _ _ _ (by decide)]
    rfl

/-- C8 witness: the scan characterization evaluated on a namespace whose
identity match sits behind an underscore-prefixed alias, and the
no-variable-name conclusion evaluated at the `print(df)` input line. -/
theorem identity_scan_spec_witness :
    scanNamespace ⟨7, .obj 2⟩ wNs8 = some "df" ∧
    ∃ p, _dataframe_intrinsic_repr wDfObj (some wPrintShell) = .ok p ∧
      alookup p "variable_name" = none := by
  constructor
  · rw [identity_scan_spec.1 ⟨7, .obj 2⟩ wNs8]
    decide
  · exact identity_scan_spec.2 wDfObj wPrintShell ⟨9, .strList ["print(df)"]⟩
      ["print(df)"] "print(df)" rfl rfl rfl rfl (by decide)

/-- C4: for every toggle, disabling with no saved record returns the state
unchanged without raising; and after any completed disable a second disable
is likewise a no-op. -/
theorem disable_noop_spec (t : Toggle) (s : ColabState) :
    (t.record s = none → t.disable s = .ok s) ∧
    (∀ s1, t.disable s = .ok s1 → t.disable s1 = .ok s1) := by
  cases t with
  | stringRepr =>
    constructor
    · intro h
      simp only [Toggle.record] at h
      simp [Toggle.disable, disable_string_repr, h]
    · intro s1 h1
      cases hrec : s._original_string_formatters with
      | none =>
        simp [Toggle.disable, disable_string_repr, hrec] at h1
        subst h1
        simp [Toggle.disable, disable_string_repr, hrec]
      | some orig =>
        cases hsh : s.shell with
        | none => simp [Toggle.disable, disable_string_repr, hrec, hsh] at h1
        | some sh =>
          cases hfm : sh.formatters _INTRINSIC_MIME_TYPE with
          | none => simp [Toggle.disable, disable_string_repr, hrec, hsh, hfm] at h1
          | some dt =>
            cases hpop : dt.pop_by_type strType with
            | error e => simp [Toggle.disable, disable_string_repr, hrec, hsh, hfm, hpop] at h1
            | ok fd =>
              simp [Toggle.disable, disable_string_repr, hrec, hsh, hfm, hpop] at h1
              subst h1
              rfl
  | dfStyle =>
    constructor
    · intro h
      simp only [Toggle.record] at h
      simp [Toggle.disable, disable_df_style_formatter, h]
    · intro s1 h1
      cases hrec : s._original_df_formatters with
      | none =>
        simp [Toggle.disable, disable_df_style_formatter, hrec] at h1
        subst h1
        simp [Toggle.disable, disable_df_style_formatter, hrec]
      | some orig =>
        cases hsh : s.shell with
        | none => simp [Toggle.disable, disable_df_style_formatter, hrec, hsh] at h1
        | some sh =>
          cases hfm : sh.formatters "text/html" with
          | none => simp [Toggle.disable, disable_df_style_formatter, hrec, hsh, hfm] at h1
          | some dt =>
            cases hpop : dt.pop_by_name stylerType with
            | error e =>
              simp [Toggle.disable, disable_df_style_formatter, hrec, hsh, hfm, hpop] at h1
            | ok fd =>
              simp [Toggle.disable, disable_df_style_formatter, hrec, hsh, hfm, hpop] at h1
              subst h1
              rfl
  | dfMeta =>
    constructor
    · intro h
      simp only [Toggle.record] at h
      simp [Toggle.disable, disable_dataframe_metadata_repr, h]
    · intro s1 h1
      cases hrec : s._original_dataframe_metadata_formatters with
      | none =>
        simp [Toggle.disable, disable_dataframe_metadata_repr, hrec] at h1
        subst h1
        simp [Toggle.disable, disable_dataframe_metadata_repr, hrec]
      | some orig =>
        cases hsh : s.shell with
        | none => simp [Toggle.disable, disable_dataframe_metadata_repr, hrec, hsh] at h1
        | some sh =>
          cases hfm : sh.formatters _INTRINSIC_MIME_TYPE with
          | none => simp [Toggle.disable, disable_dataframe_metadata_repr, hrec, hsh, hfm] at h1
          | some dt =>
            cases hpop : dt.pop_by_name dataFrameType with
            | error e =>
              simp [Toggle.disable, disable_dataframe_metadata_repr, hrec, hsh, hfm, hpop] at h1
            | ok fd =>
              simp [Toggle.disable, disable_dataframe_metadata_repr, hrec, hsh, hfm, hpop] at h1
              subst h1
              rfl

/-- C4 witness: disabling the never-enabled string toggle of the sample
state is a no-op, and so is disabling again after that. -/
theorem disable_noop_spec_witness :
    Toggle.record Toggle.stringRepr wState = none ∧
    Toggle.disable Toggle.stringRepr wState = .ok wState ∧
    Toggle.disable Toggle.stringRepr wState = .ok wState := by
  have h1 := (disable_noop_spec Toggle.stringRepr wState).1 rfl
  exact ⟨rfl, h1, (disable_noop_spec Toggle.stringRepr wState).2 wState h1⟩

/-- C3: for every toggle, whenever a first enable completes, a second enable
returns exactly the resulting state unchanged — registry and saved record
after enable-twice equal those after enable-once. -/
theorem enable_idempotent (t : Toggle) (s s1 : ColabState)
    (h : t.enable s = .ok s1) : t.enable s1 = .ok s1 := by
  cases t with
  | stringRepr =>
    cases hrec : s._original_string_formatters with
    | some orig =>
      simp [Toggle.enable, enable_string_repr, hrec] at h
      subst h
      simp [Toggle.enable, enable_string_repr, hrec]
    | none =>
      cases hsh : s.shell with
      | none =>
        simp [Toggle.enable, enable_string_repr, _register_intrinsic_mimetype, hrec, hsh] at h
        subst h
        simp [Toggle.enable, enable_string_repr, _register_intrinsic_mimetype, hrec, hsh]
      | some sh =>
        cases hfm : sh.formatters _INTRINSIC_MIME_TYPE with
        | some dt =>
          simp [Toggle.enable, enable_string_repr, _register_intrinsic_mimetype,
            hrec, hsh, hfm] at h
          subst h
          simp [Toggle.enable, enable_string_repr]
        | none =>
          simp [Toggle.enable, enable_string_repr, _register_intrinsic_mimetype,
            hrec, hsh, hfm, Shell.setFmt, updateFmts] at h
          subst h
          simp [Toggle.enable, enable_string_repr]
  | dfStyle =>
    cases hrec : s._original_df_formatters with
    | some orig =>
      simp [Toggle.enable, enable_df_style_formatter, hrec] at h
      subst h
      simp [Toggle.enable, enable_df_style_formatter, hrec]
    | none =>
      cases hsh : s.shell with
      | none =>
        simp [Toggle.enable, enable_df_style_formatter, hrec, hsh] at h
        subst h
        simp [Toggle.enable, enable_df_style_formatter, hrec, hsh]
      | some sh =>
        cases hfm : sh.formatters "text/html" with
        | none => simp [Toggle.enable, enable_df_style_formatter, hrec, hsh, hfm] at h
        | some dt =>
          simp [Toggle.enable, enable_df_style_formatter, hrec, hsh, hfm] at h
          subst h
          simp [Toggle.enable, enable_df_style_formatter]
  | dfMeta =>
    cases hrec : s._original_dataframe_metadata_formatters with
    | some orig =>
      simp [Toggle.enable, enable_dataframe_metadata_repr, hrec] at h
      subst h
      simp [Toggle.enable, enable_dataframe_metadata_repr, hrec]
    | none =>
      cases hsh : s.shell with
      | none =>
        simp [Toggle.enable, enable_dataframe_metadata_repr, _register_intrinsic_mimetype,
          hrec, hsh] at h
        subst h
        simp [Toggle.enable, enable_dataframe_metadata_repr, _register_intrinsic_mimetype,
          hrec, hsh]
      | some sh =>
        cases hfm : sh.formatters _INTRINSIC_MIME_TYPE with
        | some dt =>
          simp [Toggle.enable, enable_dataframe_metadata_repr, _register_intrinsic_mimetype,
            hrec, hsh, hfm] at h
          subst h
          simp [Toggle.enable, enable_dataframe_metadata_repr]
        | none =>
          simp [Toggle.enable, enable_dataframe_metadata_repr, _register_intrinsic_mimetype,
            hrec, hsh, hfm, Shell.setFmt, updateFmts] at h
          subst h
          simp [Toggle.enable, enable_dataframe_metadata_repr]

/-- C3 witness: enabling the string toggle of the sample state once and then
again returns the same state. -/
theorem enable_idempotent_witness :
    ∃ s1, Toggle.enable Toggle.stringRepr wState = .ok s1 ∧
      Toggle.enable Toggle.stringRepr s1 = .ok s1 :=
  ⟨_, rfl, enable_idempotent Toggle.stringRepr wState _ rfl⟩

/-- C10: for every toggle, enabling with no active shell returns the state
unchanged (no record stored, no registry change); when additionally no
record is present, disabling is equally a no-op, and any completed enable
after a shell became active stores a record and installs the toggle's
callback in its slot. -/
theorem enable_no_shell_spec (t : Toggle) (s : ColabState) (sh : Shell)
    (hsh : s.shell = none) :
    t.enable s = .ok s ∧
    (t.record s = none →
      t.disable s = .ok s ∧
      ∀ s', t.enable { s with shell := some sh } = .ok s' →
        t.record s' ≠ none ∧ t.installedSlot s' = some t.callback) := by
  cases t with
  | stringRepr =>
    refine ⟨?_, fun hrec => ⟨?_, fun s' h' => ?_⟩⟩
    · cases hrec : s._original_string_formatters with
      | some orig => simp [Toggle.enable, enable_string_repr, hrec]
      | none =>
        simp [Toggle.enable, enable_string_repr, _register_intrinsic_mimetype, hrec, hsh]
    · simp only [Toggle.record] at hrec
      simp [Toggle.disable, disable_string_repr, hrec]
    · simp only [Toggle.record] at hrec
      cases hfm : sh.formatters _INTRINSIC_MIME_TYPE with
      | some dt =>
        simp [Toggle.enable, enable_string_repr, _register_intrinsic_mimetype, hrec, hfm] at h'
        subst h'
        refine ⟨by simp [Toggle.record], ?_⟩
        simp [Toggle.installedSlot, Toggle.mime, Toggle.callback, Shell.setFmt, updateFmts,
          DispatchTable.for_type, updateMap]
      | none =>
        simp [Toggle.enable, enable_string_repr, _register_intrinsic_mimetype, hrec, hfm,
          Shell.setFmt, updateFmts] at h'
        subst h'
        refine ⟨by simp [Toggle.record], ?_⟩
        simp [Toggle.installedSlot, Toggle.mime, Toggle.callback, Shell.setFmt, updateFmts,
          DispatchTable.for_type, updateMap]
  | dfStyle =>
    refine ⟨?_, fun hrec => ⟨?_, fun s' h' => ?_⟩⟩
    · cases hrec : s._original_df_formatters with
      | some orig => simp [Toggle.enable, enable_df_style_formatter, hrec]
      | none => simp [Toggle.enable, enable_df_style_formatter, hrec, hsh]
    · simp only [Toggle.record] at hrec
      simp [Toggle.disable, disable_df_style_formatter, hrec]
    · simp only [Toggle.record] at hrec
      cases hfm : sh.formatters "text/html" with
      | some dt =>
        simp [Toggle.enable, enable_df_style_formatter, hrec, hfm] at h'
        subst h'
        refine ⟨by simp [Toggle.record], ?_⟩
        simp [Toggle.installedSlot, Toggle.mime, Toggle.callback, Shell.setFmt, updateFmts,
          DispatchTable.for_type_by_name, updateMap]
      | none =>
        simp [Toggle.enable, enable_df_style_formatter, hrec, hfm] at h'
  | dfMeta =>
    refine ⟨?_, fun hrec => ⟨?_, fun s' h' => ?_⟩⟩
    · cases hrec : s._original_dataframe_metadata_formatters with
      | some orig => simp [Toggle.enable, enable_dataframe_metadata_repr, hrec]
      | none =>
        simp [Toggle.enable, enable_dataframe_metadata_repr, _register_intrinsic_mimetype,
          hrec, hsh]
    · simp only [Toggle.record] at hrec
      simp [Toggle.disable, disable_dataframe_metadata_repr, hrec]
    · simp only [Toggle.record] at hrec
      cases hfm : sh.formatters _INTRINSIC_MIME_TYPE with
      | some dt =>
        simp [Toggle.enable, enable_dataframe_metadata_repr, _register_intrinsic_mimetype,
          hrec, hfm] at h'
        subst h'
        refine ⟨by simp [Toggle.record], ?_⟩
        simp [Toggle.installedSlot, Toggle.mime, Toggle.callback, Shell.setFmt, updateFmts,
          DispatchTable.for_type_by_name, updateMap]
      | none =>
        simp [Toggle.enable, enable_dataframe_metadata_repr, _register_intrinsic_mimetype,
          hrec, hfm, Shell.setFmt, updateFmts] at h'
        subst h'
        refine ⟨by simp [Toggle.record], ?_⟩
        simp [Toggle.installedSlot, Toggle.mime, Toggle.callback, Shell.setFmt, updateFmts,
          DispatchTable.for_type_by_name, updateMap]

/-- C10 witness: enabling the string toggle with no shell changes nothing;
with the sample shell later active it installs the string callback. -/
theorem enable_no_shell_spec_witness :
    Toggle.enable Toggle.stringRepr wNoShell = .ok wNoShell ∧
    Toggle.disable Toggle.stringRepr wNoShell = .ok wNoShell ∧
    ∃ s', Toggle.enable Toggle.stringRepr { wNoShell with shell := some wShell } = .ok s' ∧
      Toggle.record Toggle.stringRepr s' ≠ none ∧
      Toggle.installedSlot Toggle.stringRepr s' = some (Toggle.callback Toggle.stringRepr) := by
  have h := enable_no_shell_spec Toggle.stringRepr wNoShell wShell rfl
  have h2 := h.2 rfl
  exact ⟨h.1, h2.1, ⟨_, rfl, h2.2 _ rfl⟩⟩

/-- Installing a callback with `for_type`, popping it with `pop(typ)` and
reinstalling the saved previous callback restores the effective type lookup
of the slot, whatever the table held before. -/
theorem for_type_roundtrip (dt : DispatchTable) (k : TypeKey) (cb : Callback) :
    ∃ dt2, ((dt.for_type k (some cb)).2).pop_by_type k = .ok (cb, dt2) ∧
      (((dt2.for_type k (dt.for_type k (some cb)).1).2).lookup_by_type k).1 =
        (dt.lookup_by_type k).1 := by
  cases htp : dt.type_printers k <;> cases hdp : dt.deferred_printers k <;>
    simp [DispatchTable.for_type, DispatchTable.lookup_by_type, DispatchTable.pop_by_type,
      updateMap, htp, hdp]

/-- The by-name analogue of `for_type_roundtrip`, for
`for_type_by_name` / `pop("mod.Name")`. -/
theorem for_type_by_name_roundtrip (dt : DispatchTable) (k : TypeKey) (cb : Callback) :
    ∃ dt2, ((dt.for_type_by_name k (some cb)).2).pop_by_name k = .ok (cb, dt2) ∧
      (((dt2.for_type_by_name k (dt.for_type_by_name k (some cb)).1).2).lookup_by_type k).1 =
        (dt.lookup_by_type k).1 := by
  cases htp : dt.type_printers k <;> cases hdp : dt.deferred_printers k <;>
    simp [DispatchTable.for_type_by_name, DispatchTable.lookup_by_name,
      DispatchTable.lookup_by_type, DispatchTable.pop_by_name, updateMap, htp, hdp]

/-- Shape of a successful `disable_string_repr` run. -/
theorem disable_string_shape (s : ColabState) (orig : Option Callback) (sh : Shell)
    (dt : DispatchTable) (c : Callback) (dt2 : DispatchTable)
    (hrec : s._original_string_formatters = some orig)
    (hsh : s.shell = some sh)
    (hfm : sh.formatters _INTRINSIC_MIME_TYPE = some dt)
    (hpop : dt.pop_by_type strType = .ok (c, dt2)) :
    disable_string_repr s = .ok { s with
      shell := some (sh.setFmt _INTRINSIC_MIME_TYPE ((dt2.for_type strType orig).2)),
      _original_string_formatters := none } := by
  simp [disable_string_repr, hrec, hsh, hfm, hpop]

/-- Shape of a successful `disable_df_style_formatter` run. -/
theorem disable_df_style_shape (s : ColabState) (orig : Option Callback) (sh : Shell)
    (dt : DispatchTable) (c : Callback) (dt2 : DispatchTable)
    (hrec : s._original_df_formatters = some orig)
    (hsh : s.shell = some sh)
    (hfm : sh.formatters "text/html" = some dt)
    (hpop : dt.pop_by_name stylerType = .ok (c, dt2)) :
    disable_df_style_formatter s = .ok { s with
      shell := some (sh.setFmt "text/html" ((dt2.for_type_by_name stylerType orig).2)),
      _original_df_formatters := none } := by
  simp [disable_df_style_formatter, hrec, hsh, hfm, hpop]

/-- Shape of a successful `disable_dataframe_metadata_repr` run. -/
theorem disable_df_meta_shape (s : ColabState) (orig : Option Callback) (sh : Shell)
    (dt : DispatchTable) (c : Callback) (dt2 : DispatchTable)
    (hrec : s._original_dataframe_metadata_formatters = some orig)
    (hsh : s.shell = some sh)
    (hfm : sh.formatters _INTRINSIC_MIME_TYPE = some dt)
    (hpop : dt.pop_by_name dataFrameType = .ok (c, dt2)) :
    disable_dataframe_metadata_repr s = .ok { s with
      shell := some (sh.setFmt _INTRINSIC_MIME_TYPE ((dt2.for_type_by_name dataFrameType orig).2)),
      _original_dataframe_metadata_formatters := none } := by
  simp [disable_dataframe_metadata_repr, hrec, hsh, hfm, hpop]

/-- C1 (amended): for every toggle and every prior state in which the toggle
is not already enabled (it holds no OverrideRecord), whenever enable
completes, the following disable completes as well and restores the
effective callback of the toggle's (mime-type, value-type) slot to exactly
its value before the enable, the absent/None case included. -/
theorem enable_disable_restores (t : Toggle) (s : ColabState)
    (hrec : t.record s = none) (s1 : ColabState) (hen : t.enable s = .ok s1) :
    ∃ s2, t.disable s1 = .ok s2 ∧ t.slotLookup s2 = t.slotLookup s := by
  cases t with
  | stringRepr =>
    simp only [Toggle.record] at hrec
    cases hsh : s.shell with
    | none =>
      simp [Toggle.enable, enable_string_repr, _register_intrinsic_mimetype, hrec, hsh] at hen
      subst hen
      exact ⟨s, by simp [Toggle.disable, disable_string_repr, hrec], rfl⟩
    | some sh =>
      cases hfm : sh.formatters _INTRINSIC_MIME_TYPE with
      | some dt =>
        simp [Toggle.enable, enable_string_repr, _register_intrinsic_mimetype,
          hrec, hsh, hfm] at hen
        obtain ⟨dt2, hpop, hlook⟩ := for_type_roundtrip dt strType Callback.string_intrinsic_repr
        have hdis := disable_string_shape s1 _ _ _ _ dt2 (by rw [← hen]) (by rw [← hen])
          (by simp [Shell.setFmt, updateFmts]) hpop
        refine ⟨_, hdis, ?_⟩
        simp [Toggle.slotLookup, Toggle.mime, Toggle.typeKey, Shell.setFmt, updateFmts,
          hsh, hfm, hlook]
      | none =>
        simp [Toggle.enable, enable_string_repr, _register_intrinsic_mimetype,
          hrec, hsh, hfm, Shell.setFmt, updateFmts] at hen
        obtain ⟨dt2, hpop, hlook⟩ :=
          for_type_roundtrip _IntrinsicTypeFormatter strType Callback.string_intrinsic_repr
        have hdis := disable_string_shape s1 _ _ _ _ dt2 (by rw [← hen]) (by rw [← hen])
          (by simp [Shell.setFmt, updateFmts]) hpop
        refine ⟨_, hdis, ?_⟩
        simp [Toggle.slotLookup, Toggle.mime, Toggle.typeKey, Shell.setFmt, updateFmts,
          hsh, hfm, hlook]
        simp [DispatchTable.lookup_by_type, _IntrinsicTypeFormatter]
  | dfStyle =>
    simp only [Toggle.record] at hrec
    cases hsh : s.shell with
    | none =>
      simp [Toggle.enable, enable_df_style_formatter, hrec, hsh] at hen
      subst hen
      exact ⟨s, by simp [Toggle.disable, disable_df_style_formatter, hrec], rfl⟩
    | some sh =>
      cases hfm : sh.formatters "text/html" with
      | some dt =>
        simp [Toggle.enable, enable_df_style_formatter, hrec, hsh, hfm] at hen
        obtain ⟨dt2, hpop, hlook⟩ := for_type_by_name_roundtrip dt stylerType Callback.new_formatter
        have hdis := disable_df_style_shape s1 _ _ _ _ dt2 (by rw [← hen]) (by rw [← hen])
          (by simp [Shell.setFmt, updateFmts]) hpop
        refine ⟨_, hdis, ?_⟩
        simp [Toggle.slotLookup, Toggle.mime, Toggle.typeKey, Shell.setFmt, updateFmts,
          hsh, hfm, hlook]
      | none =>
        simp [Toggle.enable, enable_df_style_formatter, hrec, hsh, hfm] at hen
  | dfMeta =>
    simp only [Toggle.record] at hrec
    cases hsh : s.shell with
    | none =>
      simp [Toggle.enable, enable_dataframe_metadata_repr, _register_intrinsic_mimetype,
        hrec, hsh] at hen
      subst hen
      exact ⟨s, by simp [Toggle.disable, disable_dataframe_metadata_repr, hrec], rfl⟩
    | some sh =>
      cases hfm : sh.formatters _INTRINSIC_MIME_TYPE with
      | some dt =>
        simp [Toggle.enable, enable_dataframe_metadata_repr, _register_intrinsic_mimetype,
          hrec, hsh, hfm] at hen
        obtain ⟨dt2, hpop, hlook⟩ :=
          for_type_by_name_roundtrip dt dataFrameType Callback.dataframe_intrinsic_repr
        have hdis := disable_df_meta_shape s1 _ _ _ _ dt2 (by rw [← hen]) (by rw [← hen])
          (by simp [Shell.setFmt, updateFmts]) hpop
        refine ⟨_, hdis, ?_⟩
        simp [Toggle.slotLookup, Toggle.mime, Toggle.typeKey, Shell.setFmt, updateFmts,
          hsh, hfm, hlook]
      | none =>
        simp [Toggle.enable, enable_dataframe_metadata_repr, _register_intrinsic_mimetype,
          hrec, hsh, hfm, Shell.setFmt, updateFmts] at hen
        obtain ⟨dt2, hpop, hlook⟩ :=
          for_type_by_name_roundtrip _IntrinsicTypeFormatter dataFrameType
            Callback.dataframe_intrinsic_repr
        have hdis := disable_df_meta_shape s1 _ _ _ _ dt2 (by rw [← hen]) (by rw [← hen])
          (by simp [Shell.setFmt, updateFmts]) hpop
        refine ⟨_, hdis, ?_⟩
        simp [Toggle.slotLookup, Toggle.mime, Toggle.typeKey, Shell.setFmt, updateFmts,
          hsh, hfm, hlook]
        simp [DispatchTable.lookup_by_type, _IntrinsicTypeFormatter]

/-- C1 counterexample: from a prior state whose string toggle is already
enabled — saved callback `ext 0`, registry currently holding `ext 5` for
`str` — enable is a guard no-op and the following disable installs `ext 0`:
the slot is not restored to the callback `ext 5` registered before the
enable call. -/
theorem enable_disable_not_restoring :
    Toggle.enable Toggle.stringRepr cexState = .ok cexState ∧
    ∃ s2, Toggle.disable Toggle.stringRepr cexState = .ok s2 ∧
      Toggle.slotLookup Toggle.stringRepr s2 ≠ Toggle.slotLookup Toggle.stringRepr cexState := by
  refine ⟨rfl, _, rfl, ?_⟩
  decide

/-- C1 witness: from the sample never-enabled state, enable then disable
completes and the `str` slot's effective callback (`ext 5`) is restored. -/
theorem enable_disable_restores_witness :
    Toggle.record Toggle.stringRepr wState = none ∧
    ∃ s1, Toggle.enable Toggle.stringRepr wState = .ok s1 ∧
      ∃ s2, Toggle.disable Toggle.stringRepr s1 = .ok s2 ∧
        Toggle.slotLookup Toggle.stringRepr s2 = Toggle.slotLookup Toggle.stringRepr wState :=
  ⟨rfl, _, rfl, enable_disable_restores Toggle.stringRepr wState rfl _ rfl⟩

theorem summarizeVal_ne_empty (v : PyVal) (s : String) (h : summarizeVal v = some s) :
    s ≠ "" := by
  cases v <;> simp [summarizeVal] at h
  case df d => exact summarize_ne_empty d s h

theorem alookup_summary_withSummary (r : List (String × String)) (o : Obj)
    (hr : alookup r "summary" = none) :
    alookup (withSummary r o) "summary" = summarizeVal o.val := by
  unfold withSummary
  cases hsv : summarizeVal o.val with
  | none => exact hr
  | some s =>
    show alookup (if s = "" then r else r ++ [("summary", s)]) "summary" = some s
    rw [if_neg (summarizeVal_ne_empty o.val s hsv), alookup_append_single, hr]
    simp

theorem payload_props (base : List (String × String)) (x : Obj)
    (hty : alookup base "type" = some "dataframe")
    (hkeys : ∀ e ∈ base, e.1 = "type" ∨ e.1 = "variable_name") :
    alookup (withSummary base x) "type" = some "dataframe" ∧
    ∀ e ∈ withSummary base x, e.1 = "type" ∨ e.1 = "variable_name" ∨ e.1 = "summary" := by
  constructor
  · rw [alookup_withSummary _ _ _ (by decide)]
    exact hty
  · intro e he
    rcases mem_withSummary _ _ _ he with h | h
    · rcases hkeys e h with h2 | h2
      · exact Or.inl h2
      · exact Or.inr (Or.inl h2)
    · exact Or.inr (Or.inr h)

theorem keys_base : ∀ e ∈ basePayload, e.1 = "type" ∨ e.1 = "variable_name" := by decide

theorem keys_base_vn (v : String) :
    ∀ e ∈ basePayload ++ [("variable_name", v)], e.1 = "type" ∨ e.1 = "variable_name" := by
  intro e he
  simp [basePayload] at he
  rcases he with h | h <;> rw [h] <;> simp

/-- C2 counterexample: with an active shell whose namespace has no `In`
binding and offers no identity match, the dataframe renderer raises
(`KeyError` on `ip.user_ns["In"]`) instead of returning a payload. -/
theorem dataframe_repr_raises :
    _dataframe_intrinsic_repr wDfObj (some wBadShell) = .error () := rfl

/-- C2 (amended): for every displayed object and every shell state whose
namespace binds `In` to a non-empty list of strings whenever the identity
scan misses (IPython always maintains such an `In`), the dataframe renderer
never raises: it returns a payload carrying "type" ↦ "dataframe" whose keys
all lie among type / variable_name / summary, enrichment failures only
omitting the optional keys. -/
theorem dataframe_repr_total (o : Obj) (shellOpt : Option Shell)
    (hIn : ∀ ip, shellOpt = some ip → scanNamespace o ip.user_ns = none →
      ∃ inO xs l, alookup ip.user_ns "In" = some inO ∧ inO.val = .strList xs ∧
        xs.getLast? = some l) :
    ∃ p, _dataframe_intrinsic_repr o shellOpt = .ok p ∧
      alookup p "type" = some "dataframe" ∧
      ∀ e ∈ p, e.1 = "type" ∨ e.1 = "variable_name" ∨ e.1 = "summary" := by
  cases shellOpt with
  | none => exact ⟨_, rfl, payload_props basePayload o rfl keys_base⟩
  | some ip =>
    cases hscan : scanNamespace o ip.user_ns with
    | some v =>
      refine ⟨_, ?_, payload_props (basePayload ++ [("variable_name", v)]) o rfl (keys_base_vn v)⟩
      simp [_dataframe_intrinsic_repr, hscan]
    | none =>
      obtain ⟨inO, xs, l, h1, h2, h3⟩ := hIn ip rfl hscan
      cases hcond : (pyIsIdentifier (pypartition l).1 && (pypartition l).2.1 != "" &&
          pyStartsWith (pypartition l).2.2 "head(") with
      | false =>
        refine ⟨_, ?_, payload_props basePayload o rfl keys_base⟩
        simp [_dataframe_intrinsic_repr, hscan, h1, h2, h3, hcond]
      | true =>
        cases hlook : alookup ip.user_ns (pypartition l).1 with
        | none =>
          refine ⟨_, ?_, payload_props basePayload o rfl keys_base⟩
          simp [_dataframe_intrinsic_repr, hscan, h1, h2, h3, hcond, hlook]
        | some w =>
          cases hw : w.val with
          | df d =>
            refine ⟨_, ?_, payload_props (basePayload ++ [("variable_name", (pypartition l).1)])
              w rfl (keys_base_vn (pypartition l).1)⟩
            simp [_dataframe_intrinsic_repr, hscan, h1, h2, h3, hcond, hlook, hw]
          | str a =>
            refine ⟨_, ?_, payload_props basePayload o rfl keys_base⟩
            simp [_dataframe_intrinsic_repr, hscan, h1, h2, h3, hcond, hlook, hw]
          | strList a =>
            refine ⟨_, ?_, payload_props basePayload o rfl keys_base⟩
            simp [_dataframe_intrinsic_repr, hscan, h1, h2, h3, hcond, hlook, hw]
          | obj a =>
            refine ⟨_, ?_, payload_props basePayload o rfl keys_base⟩
            simp [_dataframe_intrinsic_repr, hscan, h1, h2, h3, hcond, hlook, hw]

/-- C2 witness: with the sample shell (well-formed `In`) the renderer
returns a dataframe payload for the sample display object. -/
theorem dataframe_repr_total_witness :
    ∃ p, _dataframe_intrinsic_repr wDfObj (some wGoodShell) = .ok p ∧
      alookup p "type" = some "dataframe" ∧
      ∀ e ∈ p, e.1 = "type" ∨ e.1 = "variable_name" ∨ e.1 = "summary" :=
  dataframe_repr_total wDfObj (some wGoodShell)
    (fun ip hip _ => by
      cases hip
      exact ⟨⟨9, .strList ["df.head()"]⟩, ["df.head()"], "df.head()", rfl, rfl, rfl⟩)

/-- C7: when the identity scan misses and the last executed input line
splits at its first dot into a valid identifier and a tail beginning with
`head(`, with the identifier bound in the namespace to a dataframe, the
renderer sets `variable_name` to that identifier and the summary is that of
the namespace object, not the displayed one; and when the pattern test
fails, the fallback sets no variable name and the summary is computed
against the displayed object itself. -/
theorem head_fallback_spec :
    (∀ (o : Obj) (ip : Shell) (inO possible : Obj) (xs : List String) (l : String)
      (d : DataFrame),
      scanNamespace o ip.user_ns = none →
      alookup ip.user_ns "In" = some inO →
      inO.val = .strList xs →
      xs.getLast? = some l →
      (pyIsIdentifier (pypartition l).1 && (pypartition l).2.1 != "" &&
        pyStartsWith (pypartition l).2.2 "head(") = true →
      alookup ip.user_ns (pypartition l).1 = some possible →
      possible.val = .df d →
      ∃ p, _dataframe_intrinsic_repr o (some ip) = .ok p ∧
        alookup p "variable_name" = some (pypartition l).1 ∧
        alookup p "summary" = _summarize_dataframe d) ∧
    (∀ (o : Obj) (ip : Shell) (inO : Obj) (xs : List String) (l : String),
      scanNamespace o ip.user_ns = none →
      alookup ip.user_ns "In" = some inO →
      inO.val = .strList xs →
      xs.getLast? = some l →
      (pyIsIdentifier (pypartition l).1 && (pypartition l).2.1 != "" &&
        pyStartsWith (pypartition l).2.2 "head(") = false →
      ∃ p, _dataframe_intrinsic_repr o (some ip) = .ok p ∧
        alookup p "variable_name" = none ∧
        alookup p "summary" = summarizeVal o.val) := by
  constructor
  · intro o ip inO possible xs l d hscan hIn hval hlast hcond hns hdf
    refine ⟨withSummary (basePayload ++ [("variable_name", (pypartition l).1)]) possible,
      ?_, ?_, ?_⟩
    · simp [_dataframe_intrinsic_repr, hscan, hIn, hval, hlast, hcond, hns, hdf]
    · rw [alookup_withSummary _ _ _ (by decide)]
      rfl
    · rw [alookup_summary_withSummary
        (basePayload ++ [("variable_name", (pypartition l).1)]) possible rfl, hdf]
      rfl
  · intro o ip inO xs l hscan hIn hval hlast hcond
    refine ⟨withSummary basePayload o, ?_, ?_, ?_⟩
    · simp [_dataframe_intrinsic_repr, hscan, hIn, hval, hlast, hcond]
    · rw [alookup_withSummary _ _ _ (by decide)]
      rfl
    · exact alookup_summary_withSummary basePayload o rfl

/-- C7 witness: with the displayed object a 1-row truncation not present in
the namespace, `df` bound to the 2-row dataframe and last line `df.head()`,
the payload names `df` and carries the 2-row dataframe's summary. -/
theorem head_fallback_spec_witness :
    ∃ p, _dataframe_intrinsic_repr wDfObj (some wGoodShell) = .ok p ∧
      alookup p "variable_name" = some (pypartition "df.head()").1 ∧
      alookup p "summary" = _summarize_dataframe wBigDf :=
  head_fallback_spec.1 wDfObj wGoodShell ⟨9, .strList ["df.head()"]⟩ ⟨8, .df wBigDf⟩
    ["df.head()"] "df.head()" wBigDf rfl rfl rfl rfl (by decide) rfl rfl

end ColabReprs
